import Mathlib

/-!
Verification of the SV-classification core of BreaKmer, shallowly embedded from
`breakmer/caller/sv_caller.py` and `breakmer/processor/target.py`.

Python integers are modelled as `ℤ`, Python floats as `ℚ` (the quantities involved
are ratios of small integers, far from any float-precision boundary relevant to the
stated properties), Python `None`-able values as `Option`, and fallible Python
evaluation as `Except PyErr`.
-/

namespace BreaKmer

/-- Exception kinds raised by the Python runtime that matter for this development. -/
inductive PyErr where
  | attributeError
  | nameError
  | typeError
deriving DecidableEq

/-- Alignment strand of a realignment segment (`br.strand ∈ {'+', '-'}`). -/
inductive Strand where
  | plus
  | minus
deriving DecidableEq

/-- Python 2 `round(x)` on a float: round half away from zero, modelled on `ℚ`. -/
def pyRound (q : ℚ) : ℤ :=
  if 0 ≤ q then ⌊q + 1 / 2⌋ else ⌈q - 1 / 2⌉

/-- Python 2 `round(x, 4)`: round to four decimal places, half away from zero. -/
def pyRound4 (q : ℚ) : ℚ :=
  (pyRound (q * 10000) : ℚ) / 10000

/-- `SVEvent.check_overlap` (sv_caller.py lines 659-665): whether one reference
coordinate interval is contained in the other. -/
def check_overlap (coord1 coord2 : ℤ × ℤ) : Bool :=
  if coord1.1 ≥ coord2.1 && coord1.2 ≤ coord2.2 then true
  else if coord2.1 ≥ coord1.1 && coord2.2 ≤ coord1.2 then true
  else false

/-- The external read-evidence collaborator (`contig.get_var_reads('sv')`), abstracted
as a record of the count queries `which_rearr` / `define_rearr` make. -/
structure VarReads where
  check_inv_readcounts : ℤ × ℤ → ℤ
  check_td_readcounts : ℤ × ℤ → ℤ
  check_other_readcounts : List ℤ → ℤ

/-- The `rearrValues` dictionary built by `SVEvent.which_rearr` (lines 667-698).
The `indelSize` key is only present after an indel branch; it is `none` otherwise. -/
structure RearrValues where
  discReadCount : Option ℤ
  svType : String
  svSubType : Option String
  hit : Bool
  indelSize : Option String
deriving DecidableEq

/-- Initial value of the `rearrValues` dictionary (sv_caller.py line 668). -/
def initRearrValues : RearrValues :=
  { discReadCount := none
    svType := "rearrangement"
    svSubType := none
    hit := false
    indelSize := none }

/-- `SVEvent.which_rearr` (sv_caller.py lines 667-698), applied to one consecutive
pair of segments: `t0, t1` are the two reference coordinate pairs (`tcoords` slice),
`q0, q1` the query coordinate pairs, `s0, s1` the strands and `b0, b1` the two
breakpoints from the slice of `self.brkpts.r`. -/
def which_rearr (varReads : VarReads) (t0 t1 q0 q1 : ℤ × ℤ) (s0 s1 : Strand)
    (b0 b1 : ℤ) : RearrValues :=
  if check_overlap t0 t1 = false then
    if s0 ≠ s1 then
      { initRearrValues with
          hit := true
          svSubType := some "inversion"
          discReadCount := some (varReads.check_inv_readcounts (b0, b1)) }
    else
      let tgap := b1 - b0
      let qgap := q1.1 - q0.2
      if tgap < 0 then
        { initRearrValues with
            hit := true
            svSubType := some "tandem_dup"
            discReadCount := some (varReads.check_td_readcounts (b0, b1)) }
      else if tgap > qgap then
        { initRearrValues with
            hit := true
            svType := "indel"
            indelSize := some ("D" ++ toString tgap) }
      else
        { initRearrValues with
            hit := true
            svType := "indel"
            indelSize := some ("I" ++ toString qgap) }
  else initRearrValues

/-- A concrete read-evidence collaborator used to instantiate witnesses. -/
def cVarReads : VarReads :=
  { check_inv_readcounts := fun _ => 7
    check_td_readcounts := fun _ => 8
    check_other_readcounts := fun _ => 9 }

/-- The `which_rearr` call made by `define_rearr` (line 713) for pair index `i`
(`1 ≤ i < n`): the two-element slices `tcoords[(i-1):(i+1)]` etc. The `getD`
defaults are never consulted for the index ranges `define_rearr` uses on lists of
sufficient length (Python would raise `IndexError` otherwise). -/
def pairRearrValues (varReads : VarReads) (tcoords qcoords : List (ℤ × ℤ))
    (strands : List Strand) (brkpts : List ℤ) (i : ℕ) : RearrValues :=
  which_rearr varReads (tcoords.getD (i - 1) (0, 0)) (tcoords.getD i (0, 0))
    (qcoords.getD (i - 1) (0, 0)) (qcoords.getD i (0, 0))
    (strands.getD (i - 1) Strand.plus) (strands.getD i Strand.plus)
    (brkpts.getD (i - 1) 0) (brkpts.getD i 0)

/-- The accumulation loop of `define_rearr` (lines 712-717): for
`i in range(1, len(self.blatResults))` collect the `vals` dictionaries with
`vals['hit']` true. -/
def rearrHitValues (varReads : VarReads) (tcoords qcoords : List (ℤ × ℤ))
    (strands : List Strand) (brkpts : List ℤ) (n : ℕ) : List RearrValues :=
  (((List.range n).drop 1).map (pairRearrValues varReads tcoords qcoords strands brkpts)).filter
    (fun v => v.hit)

/-- The `rearrHits['rearrangement']` bucket of `define_rearr`. -/
def rearrTypeHits (varReads : VarReads) (tcoords qcoords : List (ℤ × ℤ))
    (strands : List Strand) (brkpts : List ℤ) (n : ℕ) : List RearrValues :=
  (rearrHitValues varReads tcoords qcoords strands brkpts n).filter
    (fun v => v.svType == "rearrangement")

/-- The `rearrHits['indel']` bucket of `define_rearr`. -/
def indelTypeHits (varReads : VarReads) (tcoords qcoords : List (ℤ × ℤ))
    (strands : List Strand) (brkpts : List ℤ) (n : ℕ) : List RearrValues :=
  (rearrHitValues varReads tcoords qcoords strands brkpts n).filter
    (fun v => v.svType == "indel")

/-- Loop state of `define_rearr` (lines 708-711 and the mutated `self.rearrDesc`):
`svSubType`, `rs`, `rearrHit` and the free-text description list. The description
entries are `None` or strings, hence `Option String`. -/
structure DefineRearrState where
  svSubType : Option String
  rs : ℤ
  rearrHit : Bool
  rearrDesc : Option (List (Option String))
deriving DecidableEq

/-- One iteration of the `rearr == 'rearrangement'` branch of the second loop of
`define_rearr` (lines 725-734). On the first hit the subtype and discordant count
are taken from the hit (`int(...)` of the hit's `discReadCount`, always set for
rearrangement hits); on later hits `svSubType` is reset to `None` first, so a fresh
description list starts with the element `None` (lines 731-733). -/
def processRearrHit (st : DefineRearrState) (rr : RearrValues) : DefineRearrState :=
  if st.rearrHit = false then
    { st with
        svSubType := rr.svSubType
        rs := rr.discReadCount.getD 0
        rearrHit := true }
  else
    let desc := match st.rearrDesc with
      | none => [(none : Option String)]
      | some d => d
    { st with
        svSubType := none
        rearrDesc := some (desc ++ [rr.svSubType]) }

/-- One iteration of the `else` (indel) branch of the second loop of `define_rearr`
(lines 735-738): append the hit's `indelSize` label to the description list. -/
def processIndelHit (st : DefineRearrState) (rr : RearrValues) : DefineRearrState :=
  let desc := match st.rearrDesc with
    | none => ([] : List (Option String))
    | some d => d
  { st with rearrDesc := some (desc ++ [rr.indelSize]) }

/-- The value triple returned by `define_rearr` (line 744) together with the
`self.rearrDesc` it leaves behind (read by `format_rearrangement_values`). -/
structure RearrCall where
  svType : String
  svSubType : Option String
  rs : ℤ
  rearrDesc : Option (List (Option String))
deriving DecidableEq

/-- The aggregation body of `SVEvent.define_rearr` (sv_caller.py lines 707-744),
as it would run with a member count `n` in hand. On a live instance the loop
header at line 712 never obtains that count: its `len(self.blatResults)` read
raises first — see `define_rearr_py`, which wraps this body behind that
attribute read. `strands`, `brkpts`, `tcoords`, `qcoords` are the event fields
read at lines 703-706; `self.rearrDesc` is `None` when `define_rearr` runs
(set in `__init__`, written nowhere else). Python 2 iterates the `rearrHits`
dictionary in unspecified key order; the two possible keys are processed here
with `'rearrangement'` first — the returned `svSubType` and `rs` do not depend on
that order, only the interleaving of the description list does. -/
def define_rearr (varReads : VarReads) (n : ℕ) (strands : List Strand)
    (brkpts : List ℤ) (tcoords qcoords : List (ℤ × ℤ)) : RearrCall :=
  let st0 : DefineRearrState :=
    { svSubType := none, rs := 0, rearrHit := false, rearrDesc := none }
  let st1 := (rearrTypeHits varReads tcoords qcoords strands brkpts n).foldl processRearrHit st0
  let st2 := (indelTypeHits varReads tcoords qcoords strands brkpts n).foldl processIndelHit st1
  let rs := if st2.svSubType = none then varReads.check_other_readcounts brkpts else st2.rs
  { svType := "rearrangement"
    svSubType := st2.svSubType
    rs := rs
    rearrDesc := st2.rearrDesc }

/-- `SVBreakpoints.diff_chr` (sv_caller.py lines 410-418): translocation test on the
accumulated list `self.chrs` of reference names; `len(set(chrs))` is the number of
distinct names, i.e. `chrs.dedup.length`. -/
def diff_chr (chrs : List String) : Bool :=
  if chrs.dedup.length = 1 then false else true

/-- Result of `ContigCaller.check_add_br` (sv_caller.py lines 929-955): the
acceptance decision plus the two segment-overlap diagnostics recorded on the
segment by `set_segment_overlap` (line 945). -/
structure CheckAddResult where
  add : Bool
  overlapLeft : ℤ
  overlapRight : ℤ
deriving DecidableEq

/-- `ContigCaller.check_add_br` (sv_caller.py lines 929-955). `qstart`/`qend` are
the candidate segment's query coordinates, `rInTarget` its in-target flag,
`evInTarget` the event-so-far's in-target flag. Line 936 rounds the overlap
percentage (Python 2 `round`: half away from zero) before the `>= 50` test. -/
def check_add_br (qstart qend gapStart gapEnd : ℤ) (rInTarget evInTarget : Bool) :
    CheckAddResult :=
  let overlapPecent : ℤ :=
    pyRound ((((min qend gapEnd - max qstart gapStart : ℤ) : ℚ) /
      ((qend - qstart : ℤ) : ℚ)) * 100)
  let overlapRight : ℤ := if qend > gapEnd then |qend - gapEnd| else 0
  let overlapLeft : ℤ := if qstart < gapStart then |qstart - gapStart| else 0
  let maxSegmentOverlap := max overlapRight overlapLeft
  { add := decide (overlapPecent ≥ 50) &&
      (decide (maxSegmentOverlap < 15) || (rInTarget && evInTarget))
    overlapLeft := overlapLeft
    overlapRight := overlapRight }

/-- The acceptance condition exactly as the spec words it (claim C4): the raw,
unrounded percentage `100 * (min(segEnd,gapEnd) - max(segStart,gapStart)) /
(segEnd - segStart)` must be at least 50. Stated for comparison with
`check_add_br`, which rounds before comparing. -/
def specOverlapAccept (qstart qend gapStart gapEnd : ℤ) (rInTarget evInTarget : Bool) :
    Prop :=
  (100 * ((min qend gapEnd - max qstart gapStart : ℤ) : ℚ) /
      ((qend - qstart : ℤ) : ℚ) ≥ 50) ∧
    (max (if qstart < gapStart then |qstart - gapStart| else 0)
        (if qend > gapEnd then |qend - gapEnd| else 0) < 15 ∨
      (rInTarget = true ∧ evInTarget = true))

instance (qstart qend gapStart gapEnd : ℤ) (r e : Bool) :
    Decidable (specOverlapAccept qstart qend gapStart gapEnd r e) := by
  unfold specOverlapAccept
  infer_instance

/-- A realignment segment (external "blat result" data, sv_caller.py usage):
the fields of the collaborator object that the calling core reads.
`tstart`/`tend` model `get_coords('ref')`, `qstart`/`qend` model
`get_coords('query')`, `nmatchTotal` models `get_nmatch_total()`, `querySpan`
models `get_query_span()` and `querySeqSize` models `get_seq_size('query')`;
`filterRepsEdges` models the pair `filter_reps_edges[0], filter_reps_edges[1]`. -/
structure Segment where
  refName : String
  tstart : ℤ
  tend : ℤ
  qstart : ℤ
  qend : ℤ
  strand : Strand
  in_target : Bool
  filterRepsEdges : ℤ × ℤ
  nmatchTotal : ℤ
  querySpan : ℤ
  querySeqSize : ℤ
deriving DecidableEq

/-- The first loop of `SVEvent.get_startend_missing_query_coverage`
(sv_caller.py lines 787-792): count coverage entries equal to zero until the
first nonzero entry (`break`). -/
def count_leading_zero_cov : List ℕ → ℕ
  | [] => 0
  | c :: rest => if c = 0 then 1 + count_leading_zero_cov rest else 0

/-- `SVEvent.get_startend_missing_query_coverage` (sv_caller.py lines 783-800):
the leading zero-coverage run plus the trailing zero-coverage run (the second
loop walks `reversed(self.queryCoverage)`), as a percentage of
`len(self.contig.seq)` rounded to 4 decimal places. -/
def get_startend_missing_query_coverage (queryCoverage : List ℕ) (seqLen : ℕ) : ℚ :=
  let missingCov : ℕ :=
    count_leading_zero_cov queryCoverage + count_leading_zero_cov queryCoverage.reverse
  pyRound4 (((missingCov : ℚ) / (seqLen : ℚ)) * 100)

/-- One tuple of `SVBreakpoints.genomicBrkpts`: `('chr#', bp1[, bp2])`. -/
structure GenomicBrkpt where
  chrom : String
  pts : List ℤ
deriving DecidableEq

/-- `SVBreakpoints` state (sv_caller.py lines 331-348), restricted to the fields
`update_brkpt_info` touches. `q0`/`q1` are the two components of `self.q`
(`[[0, 0], []]`); the per-junction counts and kmer lists (`set_counts`) depend on
the external contig count tracker and are out of scope here. `set_sv_brkpt`
side effects on the segment object are likewise external annotations. -/
structure SVBrkptState where
  t_target : Option (String × ℤ)
  t_other : Option (String × ℤ)
  formatted : List String
  r : List ℤ
  q0 : ℤ × ℤ
  q1 : List (ℤ × ℤ × Option ℤ)
  chrs : List String
  brkptStr : List String
  tcoords : List (ℤ × ℤ)
  qcoords : List (ℤ × ℤ)
  f : List (Option ℤ)
  genomicBrkpts_target : List GenomicBrkpt
  genomicBrkpts_other : List GenomicBrkpt
deriving DecidableEq

/-- `SVBreakpoints.__init__` (sv_caller.py lines 332-348). -/
def initSVBrkptState : SVBrkptState :=
  { t_target := none
    t_other := none
    formatted := []
    r := []
    q0 := (0, 0)
    q1 := []
    chrs := []
    brkptStr := []
    tcoords := []
    qcoords := []
    f := []
    genomicBrkpts_target := []
    genomicBrkpts_other := [] }

/-- In-place mutation of the last entry of `self.q[1]` (`self.q[1][-1][2] = ...`).
On an empty list Python raises `IndexError`; that state is unreachable because
`update_brkpt_info` is always called with `i == 0` first, which appends an entry. -/
def modifyLastQ (q1 : List (ℤ × ℤ × Option ℤ)) (g : ℤ × ℤ × Option ℤ → ℤ × ℤ × Option ℤ) :
    List (ℤ × ℤ × Option ℤ) :=
  match q1.getLast? with
  | none => q1
  | some x => q1.dropLast ++ [g x]

/-- The formatted breakpoint string `'chr' + name + ":" + "-".join(tbrkpt)`
(sv_caller.py lines 397 and 401). -/
def brkptStrOf (refName : String) (tbrkpt : List ℤ) : String :=
  "chr" ++ refName ++ ":" ++ String.intercalate "-" (tbrkpt.map toString)

/-- `SVBreakpoints.update_brkpt_info` (sv_caller.py lines 350-401). `br` is the
segment visited at sorted index `i`; `lastIter` is `i == len(blatResSorted) - 1`.
The branch result carries the new `q0`, the new `q1`, `tbrkpt`, `filt_rep_start`
and the `genomicBrkpts` tuples appended under the segment's target key. In the
middle-segment branch the `(chrom, ts, te)` tuple is appended unconditionally
(line 388) and a reverse-strand middle segment appends `(chrom, te, ts)` as well
(line 394). -/
def update_brkpt_info (st : SVBrkptState) (br : Segment) (i : ℕ) (lastIter : Bool) :
    SVBrkptState :=
  let chrom := "chr" ++ br.refName
  let ts := br.tstart
  let te := br.tend
  let qs := br.qstart
  let qe := br.qend
  let base :=
    { st with
        chrs := st.chrs ++ [br.refName]
        tcoords := st.tcoords ++ [(ts, te)]
        qcoords := st.qcoords ++ [(qs, qe)] }
  let branch : (ℤ × ℤ) × List (ℤ × ℤ × Option ℤ) × List ℤ × Option ℤ × List GenomicBrkpt :=
    if i = 0 then
      let q0 := (max 0 (qs - 1), qe)
      let q1 := base.q1 ++ [(qe, qe - q0.1, none)]
      let tb := if br.strand = Strand.minus then [ts] else [te]
      (q0, q1, tb, some br.filterRepsEdges.1, [{ chrom := chrom, pts := [tb.headD 0] }])
    else if lastIter then
      let q1a := modifyLastQ base.q1 (fun x => (x.1, x.2.1, some (qe - x.1)))
      let q1 := q1a ++ [(qs, qs - base.q0.1, some (qe - qs))]
      let tb := if br.strand = Strand.minus then [te] else [ts]
      let frs := if br.strand = Strand.minus then br.filterRepsEdges.2 else br.filterRepsEdges.1
      (base.q0, q1, tb, some frs, [{ chrom := chrom, pts := [tb.headD 0] }])
    else
      let q1a := modifyLastQ base.q1 (fun x => (x.1, x.2.1, some (qe - x.2.1)))
      let q1 := q1a ++ [(qs, qs - base.q0.1, some (qe - qs)), (qe, qe - qs, none)]
      let q0 := (qs, qe)
      if br.strand = Strand.minus then
        (q0, q1, [te, ts], some br.filterRepsEdges.2,
          [{ chrom := chrom, pts := [ts, te] }, { chrom := chrom, pts := [te, ts] }])
      else
        (q0, q1, [ts, te], none, [{ chrom := chrom, pts := [ts, te] }])
  let q0 := branch.1
  let q1 := branch.2.1
  let tbrkpt := branch.2.2.1
  let frs := branch.2.2.2.1
  let gbs := branch.2.2.2.2
  { base with
      q0 := q0
      q1 := q1
      genomicBrkpts_target := base.genomicBrkpts_target ++ (if br.in_target then gbs else [])
      genomicBrkpts_other := base.genomicBrkpts_other ++ (if br.in_target then [] else gbs)
      brkptStr := base.brkptStr ++ [brkptStrOf br.refName tbrkpt]
      r := base.r ++ tbrkpt
      f := base.f ++ [frs]
      t_target := if br.in_target then some (br.refName, tbrkpt.headD 0) else base.t_target
      t_other := if br.in_target then base.t_other else some (br.refName, tbrkpt.headD 0)
      formatted := base.formatted ++ [brkptStrOf br.refName tbrkpt] }

/-- Python name resolution against a scope: an unbound name raises `NameError`. -/
def resolveName (scope : List String) (n : String) : Except PyErr String :=
  if n ∈ scope then Except.ok n else Except.error PyErr.nameError

/-- Python attribute resolution against an instance's assigned attribute names:
a missing attribute raises `AttributeError`. -/
def resolveAttr (attrs : List String) (n : String) : Except PyErr String :=
  if n ∈ attrs then Except.ok n else Except.error PyErr.attributeError

/-- Names bound in the scope of `SVEvent.add` (sv_caller.py lines 513-530): the
two parameters and the loop variable. No module-level binding named
`realignResults` exists in sv_caller.py either (the module binds `sys`, `os`,
`math`, `pysam`, `utils` and the five class names). -/
def addScopeNames : List String := ["self", "realignResult", "i"]

/-- The name evaluated as the upper loop bound at sv_caller.py line 521:
`range(realignResult.qstart, realignResults.qend)`. -/
def addRangeBoundName : String := "realignResults"

/-- The parameters of `ContigCaller.check_add_br` besides `self`
(sv_caller.py line 929). -/
def checkAddBrParamNames : List String := ["realignResult", "gapStart", "gapEnd"]

/-- The number of positional arguments passed to `self.check_add_br` at the call
site in `iter_gaps` (sv_caller.py line 915):
`(realignResult.qstart, realignResult.qend, gapStart, gapEnd, realignResult)`. -/
def iterGapsCallArgCount : ℕ := 5

/-- The attribute names assigned on `self` by `SVEvent.__init__`
(sv_caller.py lines 493-510); the member list is stored as `segmentResults`
(line 497) and `blatResults` is never among them. -/
def svEventInitAttrNames : List String :=
  ["loggingName", "svType", "svSubtype", "events", "segmentResults", "annotated",
   "qlen", "nmatch", "in_target", "contig", "querySize", "queryCoverage",
   "brkpts", "rearrDesc", "resultValues"]

/-- The attribute `SVEvent.result_valid` reads at sv_caller.py line 536. -/
def resultValidAttrName : String := "blatResults"

/-- `SVEvent.result_valid` (sv_caller.py lines 532-538) as executed on a live
instance: line 536 first evaluates `self.blatResults` against the instance's
assigned attribute names, raising `AttributeError` when it is absent.
`memberCount` and `inTarget` are the member-list length and in-target flag the
comparison `len(self.blatResults) > 1 and self.in_target` would use were the
attribute present. -/
def result_valid_py (attrNames : List String) (memberCount : ℕ) (inTarget : Bool) :
    Except PyErr Bool :=
  match resolveAttr attrNames resultValidAttrName with
  | Except.error e => Except.error e
  | Except.ok _ => Except.ok (decide (memberCount > 1) && inTarget)

/-- The terminal gate of `ContigCaller.check_svs` (sv_caller.py lines 884-888):
`if self.svEvent and self.svEvent.result_valid(): return True`, else
`self.svEvent = None` and return `False`. An exception raised by `result_valid`
propagates out of `check_svs` uncaught. The live event is abstracted to its
member count and in-target flag together with the instance attribute names. -/
def check_svs_gate_py (attrNames : List String) (svEvent : Option (ℕ × Bool)) :
    Except PyErr (Option (ℕ × Bool) × Bool) :=
  match svEvent with
  | some ev =>
    match result_valid_py attrNames ev.1 ev.2 with
    | Except.error e => Except.error e
    | Except.ok true => Except.ok (some ev, true)
    | Except.ok false => Except.ok (none, false)
  | none => Except.ok (none, false)

/-- `SVEvent.define_rearr` as executed on a live instance: before any pair
aggregation, the loop header at sv_caller.py line 712 evaluates
`len(self.blatResults)` against the attributes `__init__` leaves on the
instance, and `blatResults` is never assigned, so the read raises
`AttributeError`. Were the attribute present, its length would be the member
count `n` and the aggregation modelled by `define_rearr` (lines 713-744) would
run. -/
def define_rearr_py (attrNames : List String) (varReads : VarReads) (n : ℕ)
    (strands : List Strand) (brkpts : List ℤ) (tcoords qcoords : List (ℤ × ℤ)) :
    Except PyErr RearrCall :=
  match resolveAttr attrNames "blatResults" with
  | Except.error e => Except.error e
  | Except.ok _ => Except.ok (define_rearr varReads n strands brkpts tcoords qcoords)

/-- Python values, as far as `TargetManager` construction needs them. -/
inductive PyVal where
  | pyNone
  | pyInt (n : ℤ)
  | pyStr (s : String)
  | pyObj (tag : String)
deriving DecidableEq

/-- An instance `__dict__`: assigned attribute names with their values. -/
abbrev Attrs := List (String × PyVal)

/-- Read an instance attribute; missing attributes raise `AttributeError`. -/
def attrLookup (a : Attrs) (n : String) : Except PyErr PyVal :=
  match a.find? (fun p => p.1 == n) with
  | some p => Except.ok p.2
  | none => Except.error PyErr.attributeError

/-- Write an instance attribute (insert or overwrite). -/
def attrSet (a : Attrs) (n : String) (v : PyVal) : Attrs :=
  if a.any (fun p => p.1 == n) then
    a.map (fun p => if p.1 == n then (n, v) else p)
  else a ++ [(n, v)]

/-- Python `int(x)` as used by the `TargetManager` setters. `int(None)` raises
`TypeError`; numeric strings convert. -/
def pyToInt (v : PyVal) : Except PyErr PyVal :=
  match v with
  | PyVal.pyInt n => Except.ok (PyVal.pyInt n)
  | PyVal.pyStr s =>
    match s.toInt? with
    | some n => Except.ok (PyVal.pyInt n)
    | none => Except.error PyErr.typeError
  | _ => Except.error PyErr.typeError

/-- Python 2 `<` on the values the `TargetManager` setters can compare: `None`
sorts below everything else, integers compare numerically, strings
lexicographically, and integers sort below strings (type-name order). -/
def pyLt (v w : PyVal) : Bool :=
  match v, w with
  | PyVal.pyNone, PyVal.pyNone => false
  | PyVal.pyNone, _ => true
  | _, PyVal.pyNone => false
  | PyVal.pyInt a, PyVal.pyInt b => decide (a < b)
  | PyVal.pyStr a, PyVal.pyStr b => decide (a < b)
  | PyVal.pyInt _, PyVal.pyStr _ => true
  | PyVal.pyStr _, PyVal.pyInt _ => false
  | _, _ => false

/-- A Python `property` object: a getter and an optional setter. -/
structure PyProperty where
  fget : Attrs → Except PyErr PyVal
  fset : Option (PyVal → Attrs → Except PyErr Attrs)

/-- Getter of the `start` property as first defined (target.py lines 404-406):
reads the name-mangled `self.__start`. -/
def getStartV1 (a : Attrs) : Except PyErr PyVal :=
  attrLookup a "_TargetManager__start"

/-- Setter of the `start` property as first defined (target.py lines 408-413). -/
def setStartV1 (v : PyVal) (a : Attrs) : Except PyErr Attrs := do
  let cur ← attrLookup a "_TargetManager__start"
  if cur = PyVal.pyNone then
    let n ← pyToInt v
    pure (attrSet a "_TargetManager__start" n)
  else if pyLt v cur then
    let n ← pyToInt v
    pure (attrSet a "_TargetManager__start" n)
  else
    pure a

/-- Getter of the `end` property (target.py lines 415-417): reads `self.__end`. -/
def getEndProp (a : Attrs) : Except PyErr PyVal :=
  attrLookup a "_TargetManager__end"

/-- The setter defined at target.py lines 419-424: decorated `@end.setter` but
its `def` is named `start`, so class-body execution binds the resulting property
(end's getter plus this setter, which reads and writes `self.__end`) to the
class attribute `start`, overwriting the first `start` property; `end` keeps no
setter. -/
def setStartAsEnd (v : PyVal) (a : Attrs) : Except PyErr Attrs := do
  let cur ← attrLookup a "_TargetManager__end"
  if cur = PyVal.pyNone then
    let n ← pyToInt v
    pure (attrSet a "_TargetManager__end" n)
  else if pyLt v cur then
    let n ← pyToInt v
    pure (attrSet a "_TargetManager__end" n)
  else
    pure a

/-- Getter of the `chrom` property (target.py lines 426-428): reads the
single-underscore `self._chrom` (not name-mangled to the class). -/
def getChromProp (a : Attrs) : Except PyErr PyVal :=
  attrLookup a "_chrom"

/-- Setter of the `chrom` property (target.py lines 430-433): its first action
reads `self.__chrom` (mangled `_TargetManager__chrom`), an attribute no code
ever initializes. -/
def setChromProp (v : PyVal) (a : Attrs) : Except PyErr Attrs := do
  let cur ← attrLookup a "_TargetManager__chrom"
  if cur = PyVal.pyNone then
    pure (attrSet a "_TargetManager__chrom" v)
  else
    pure a

/-- Insert or overwrite a binding in a class namespace. -/
def pyClassInsert (d : List (String × PyProperty)) (k : String) (p : PyProperty) :
    List (String × PyProperty) :=
  if d.any (fun q => q.1 == k) then
    d.map (fun q => if q.1 == k then (k, p) else q)
  else d ++ [(k, p)]

/-- The property bindings produced by executing the `TargetManager` class body
(target.py lines 404-433) in source order: `start` (getter+setter), `end`
(getter only), then the `@end.setter` block rebinding the name `start` to a
property with `end`'s getter and the `setStartAsEnd` setter, then `chrom`. -/
def targetManagerClassProps : List (String × PyProperty) :=
  pyClassInsert
    (pyClassInsert
      (pyClassInsert
        (pyClassInsert [] "start" { fget := getStartV1, fset := some setStartV1 })
        "end" { fget := getEndProp, fset := none })
      "start" { fget := getEndProp, fset := some setStartAsEnd })
    "chrom" { fget := getChromProp, fset := some setChromProp }

/-- Look up a property in the `TargetManager` class namespace. -/
def targetManagerClassLookup (k : String) : Option PyProperty :=
  (targetManagerClassProps.find? (fun q => q.1 == k)).map (fun q => q.2)

/-- `self.<k> = v` on a `TargetManager` instance: a data-descriptor property
intercepts the assignment (a property without a setter raises
`AttributeError: can't set attribute`); plain names go to the instance dict. -/
def targetManagerSetAttr (k : String) (v : PyVal) (a : Attrs) : Except PyErr Attrs :=
  match targetManagerClassLookup k with
  | some p =>
    match p.fset with
    | some f => f v a
    | none => Except.error PyErr.attributeError
  | none => pure (attrSet a k v)

/-- `TargetManager.__init__` (target.py lines 390-402). The statements after
`self.end = None` (paths, files, `readLen`, `variation`, `regionBuffer` and
`setup()`, lines 397-402) involve external collaborators and are abstracted as
the continuation `rest`; the property assignments of lines 394-396 precede them. -/
def targetManagerInit (name : String) (params : PyVal)
    (rest : Attrs → Except PyErr Attrs) : Except PyErr Attrs := do
  let a := attrSet (attrSet (attrSet []
    "loggingName" (PyVal.pyStr "breakmer.processor.target"))
    "params" params) "name" (PyVal.pyStr name)
  let a ← targetManagerSetAttr "chrom" PyVal.pyNone a
  let a ← targetManagerSetAttr "start" PyVal.pyNone a
  let a ← targetManagerSetAttr "end" PyVal.pyNone a
  rest a

/-- Concrete first segment used by concrete evaluations (forward strand, in target). -/
def segA : Segment :=
  { refName := "1"
    tstart := 10
    tend := 40
    qstart := 0
    qend := 30
    strand := Strand.plus
    in_target := true
    filterRepsEdges := (0, 0)
    nmatchTotal := 30
    querySpan := 30
    querySeqSize := 40 }

/-- Concrete reverse-strand middle segment used by concrete evaluations. -/
def segBminus : Segment :=
  { refName := "1"
    tstart := 50
    tend := 80
    qstart := 30
    qend := 60
    strand := Strand.minus
    in_target := true
    filterRepsEdges := (0, 0)
    nmatchTotal := 30
    querySpan := 30
    querySeqSize := 40 }

lemma pyRound_intCast (z : ℤ) : pyRound (z : ℚ) = z := by
  unfold pyRound
  split_ifs with h
  · rw [Int.floor_eq_iff]
    constructor
    · linarith
    · linarith
  · rw [Int.ceil_eq_iff]
    constructor
    · linarith
    · linarith

lemma pyRound4_intCast (z : ℤ) : pyRound4 (z : ℚ) = z := by
  unfold pyRound4
  have h : ((z : ℚ) * 10000) = ((z * 10000 : ℤ) : ℚ) := by push_cast; ring
  rw [h, pyRound_intCast]
  push_cast
  ring

/-- Claim C1: for a consecutive pair of accepted segments whose reference ranges do
not contain one another and whose strands match, `which_rearr` computes
`targetGap = b1 - b0` and `queryGap = q1.start - q0.end` and returns: tandem
duplication when `targetGap < 0`; a deletion indel labelled `D<targetGap>` when
`targetGap > queryGap`; otherwise an insertion indel labelled `I<queryGap>`. -/
theorem which_rearr_same_strand_cases (varReads : VarReads) (t0 t1 q0 q1 : ℤ × ℤ)
    (s : Strand) (b0 b1 : ℤ) (h : check_overlap t0 t1 = false) :
    which_rearr varReads t0 t1 q0 q1 s s b0 b1 =
      (if b1 - b0 < 0 then
        { initRearrValues with
            hit := true
            svSubType := some "tandem_dup"
            discReadCount := some (varReads.check_td_readcounts (b0, b1)) }
      else if b1 - b0 > q1.1 - q0.2 then
        { initRearrValues with
            hit := true
            svType := "indel"
            indelSize := some ("D" ++ toString (b1 - b0)) }
      else
        { initRearrValues with
            hit := true
            svType := "indel"
            indelSize := some ("I" ++ toString (q1.1 - q0.2)) }) := by
  simp [which_rearr, h]

/-- Witness for C1: a concrete same-strand, non-contained pair with a negative
target gap is classified as a tandem duplication. -/
theorem which_rearr_same_strand_cases_witness :
    which_rearr cVarReads (100, 200) (300, 400) (0, 50) (60, 100)
      Strand.plus Strand.plus 300 200 =
      { initRearrValues with
          hit := true
          svSubType := some "tandem_dup"
          discReadCount := some 8 } := by
  rw [which_rearr_same_strand_cases cVarReads (100, 200) (300, 400) (0, 50) (60, 100)
    Strand.plus 300 200 (by decide)]
  decide

/-- Claim C2: `which_rearr` reports subtype inversion exactly when neither
segment's reference interval contains the other's and the strands differ; when
one reference interval contains the other, the pair contributes no
classification (the initial, no-hit dictionary is returned unchanged). -/
theorem which_rearr_inversion_iff (varReads : VarReads) (t0 t1 q0 q1 : ℤ × ℤ)
    (s0 s1 : Strand) (b0 b1 : ℤ) :
    ((which_rearr varReads t0 t1 q0 q1 s0 s1 b0 b1).svSubType = some "inversion" ↔
      (check_overlap t0 t1 = false ∧ s0 ≠ s1)) ∧
    (check_overlap t0 t1 = true →
      which_rearr varReads t0 t1 q0 q1 s0 s1 b0 b1 = initRearrValues) := by
  cases hc : check_overlap t0 t1 with
  | false =>
    by_cases hs : s0 = s1
    · subst hs
      constructor
      · simp only [which_rearr, hc]
        split_ifs <;> simp_all [initRearrValues]
      · intro hcontra
        exact absurd hcontra (by decide)
    · simp [which_rearr, hc, hs]
  | true =>
    simp [which_rearr, hc, initRearrValues]

/-- Witness for C2: a concrete opposite-strand, non-contained pair is classified
as an inversion, and a concrete contained pair yields no classification. -/
theorem which_rearr_inversion_iff_witness :
    (which_rearr cVarReads (0, 10) (5, 20) (0, 4) (4, 9)
        Strand.plus Strand.minus 10 5).svSubType = some "inversion" ∧
    which_rearr cVarReads (0, 100) (10, 20) (0, 4) (4, 9)
        Strand.plus Strand.minus 100 10 = initRearrValues := by
  constructor
  · exact (which_rearr_inversion_iff cVarReads (0, 10) (5, 20) (0, 4) (4, 9)
      Strand.plus Strand.minus 10 5).1.mpr ⟨by decide, by decide⟩
  · exact (which_rearr_inversion_iff cVarReads (0, 100) (10, 20) (0, 4) (4, 9)
      Strand.plus Strand.minus 100 10).2 (by decide)

/-- Claim C3 (code bug, evaluation of the faulty gate): for every live event —
whatever its member count and in-target flag — the validity gate raises
`AttributeError` because `result_valid` reads `self.blatResults`, an attribute
`__init__` never assigns (it writes `segmentResults`); an invalid event is
therefore never discarded with `svEvent` reset to `None` as the claim (and the
spec's intent) describes. -/
theorem check_svs_gate_raises (memberCount : ℕ) (inTarget : Bool) :
    result_valid_py svEventInitAttrNames memberCount inTarget =
      Except.error PyErr.attributeError ∧
    check_svs_gate_py svEventInitAttrNames (some (memberCount, inTarget)) =
      Except.error PyErr.attributeError ∧
    (Except.error PyErr.attributeError :
        Except PyErr (Option (ℕ × Bool) × Bool)) ≠ Except.ok (none, false) :=
  ⟨rfl, rfl, fun h => Except.noConfusion h⟩

/-- Counterexample for C4: with segment query range `[0, 1000)` and gap
`[0, 496)` the exact overlap percentage is `49.6 < 50`, so the claim as stated
rejects the segment, yet `check_add_br` rounds `49.6` to `50` and accepts it
(both in-target flags set). -/
theorem check_add_br_rounding_cex :
    (check_add_br 0 1000 0 496 true true).add = true ∧
    ¬ specOverlapAccept 0 1000 0 496 true true := by
  constructor
  · show (decide (pyRound ((((min (1000 : ℤ) 496 - max (0 : ℤ) 0 : ℤ) : ℚ) /
        (((1000 : ℤ) - 0 : ℤ) : ℚ)) * 100) ≥ 50) &&
      (decide (max (if (1000 : ℤ) > 496 then |(1000 : ℤ) - 496| else 0)
        (if (0 : ℤ) < 0 then |(0 : ℤ) - 0| else 0) < 15) || (true && true))) = true
    have hr : pyRound ((((min (1000 : ℤ) 496 - max (0 : ℤ) 0 : ℤ) : ℚ) /
        (((1000 : ℤ) - 0 : ℤ) : ℚ)) * 100) = 50 := by
      have harg : (((min (1000 : ℤ) 496 - max (0 : ℤ) 0 : ℤ) : ℚ) /
          (((1000 : ℤ) - 0 : ℤ) : ℚ)) * 100 = 248 / 5 := by
        norm_num
      rw [harg]
      unfold pyRound
      rw [if_pos (by norm_num)]
      rw [show (248 / 5 + 1 / 2 : ℚ) = 501 / 10 by norm_num]
      rw [Int.floor_eq_iff]
      constructor <;> norm_num
    rw [hr]
    decide
  · intro hcontra
    rcases hcontra with ⟨h1, _⟩
    norm_num at h1

/-- Claim C4 amended: `check_add_br` accepts exactly when the overlap percentage
rounded to the nearest integer (half away from zero) is at least 50 and
(`max(overlapLeft, overlapRight) < 15` or both in-target flags are set); a
segment lying fully inside the gap is always accepted, with
`overlapLeft = overlapRight = 0`. -/
theorem check_add_br_amended :
    (∀ qstart qend gapStart gapEnd : ℤ, ∀ rInTarget evInTarget : Bool,
      (check_add_br qstart qend gapStart gapEnd rInTarget evInTarget).add = true ↔
        (50 ≤ pyRound ((((min qend gapEnd - max qstart gapStart : ℤ) : ℚ) /
            ((qend - qstart : ℤ) : ℚ)) * 100) ∧
          (max (if qend > gapEnd then |qend - gapEnd| else 0)
              (if qstart < gapStart then |qstart - gapStart| else 0) < 15 ∨
            (rInTarget = true ∧ evInTarget = true)))) ∧
    (∀ qstart qend gapStart gapEnd : ℤ, ∀ rInTarget evInTarget : Bool,
      gapStart ≤ qstart → qend ≤ gapEnd → qstart < qend →
      check_add_br qstart qend gapStart gapEnd rInTarget evInTarget =
        { add := true, overlapLeft := 0, overlapRight := 0 }) := by
  constructor
  · intro qstart qend gapStart gapEnd rInTarget evInTarget
    simp only [check_add_br, Bool.and_eq_true, Bool.or_eq_true, decide_eq_true_eq,
      ge_iff_le]
  · intro qstart qend gapStart gapEnd rInTarget evInTarget h1 h2 h3
    have hmin : min qend gapEnd = qend := min_eq_left h2
    have hmax : max qstart gapStart = qstart := max_eq_left h1
    have hne : ((qend - qstart : ℤ) : ℚ) ≠ 0 := by
      have : (0 : ℤ) < qend - qstart := by omega
      intro hcontra
      rw [Int.cast_eq_zero] at hcontra
      omega
    have hratio : (((min qend gapEnd - max qstart gapStart : ℤ) : ℚ) /
        ((qend - qstart : ℤ) : ℚ)) * 100 = ((100 : ℤ) : ℚ) := by
      rw [hmin, hmax, div_self hne]
      norm_num
    simp only [check_add_br, hratio, pyRound_intCast]
    have hr : ¬ qend > gapEnd := by omega
    have hl : ¬ qstart < gapStart := by omega
    simp [hr, hl]

/-- Witness for C4's amended claim: a concrete segment fully inside a concrete
gap is accepted with zero recorded overlaps. -/
theorem check_add_br_amended_witness :
    check_add_br 10 20 0 100 false false =
      { add := true, overlapLeft := 0, overlapRight := 0 } :=
  check_add_br_amended.2 10 20 0 100 false false (by decide) (by decide) (by decide)

/-- Claim C5: the classification core does not run exception-free. Line 521 of
`SVEvent.add` evaluates the unbound name `realignResults` (`NameError`), the
`iter_gaps` call site passes five positional arguments to the three-parameter
`check_add_br` (`TypeError`), and `result_valid` reads `self.blatResults`, an
attribute `__init__` never assigns (`AttributeError`). -/
theorem classification_core_name_errors :
    resolveName addScopeNames addRangeBoundName = Except.error PyErr.nameError ∧
    iterGapsCallArgCount ≠ checkAddBrParamNames.length ∧
    resolveAttr svEventInitAttrNames resultValidAttrName =
      Except.error PyErr.attributeError :=
  ⟨rfl, by decide, rfl⟩

/-- Counterexample for C6: at a concrete same-chromosome event whose two
consecutive pairs would both classify as inversions, `define_rearr` on a live
instance raises `AttributeError` at its `len(self.blatResults)` read (line 712,
an attribute `__init__` never assigns) — it neither sets the subtype to
`"undetermined"` nor appends anything to the description. -/
theorem define_rearr_undetermined_cex :
    define_rearr_py svEventInitAttrNames cVarReads 3
        [Strand.plus, Strand.minus, Strand.plus] [200, 300, 400, 500]
        [(100, 200), (300, 400), (500, 600)] [(0, 50), (50, 100), (100, 150)] =
      Except.error PyErr.attributeError ∧
    (Except.error PyErr.attributeError : Except PyErr RearrCall) ≠
      Except.ok { svType := "rearrangement"
                  svSubType := some "undetermined"
                  rs := 9
                  rearrDesc := some [some "inversion"] } :=
  ⟨rfl, fun h => Except.noConfusion h⟩

/-- Claim C6 amended: `define_rearr` never sets the event's subtype to
`"undetermined"` (no such value exists in the code): on every call, for every
member count and every combination of pair classifications, it raises
`AttributeError` at the `len(self.blatResults)` read of line 712 — before any
pair aggregation runs. -/
theorem define_rearr_always_raises (varReads : VarReads) (n : ℕ)
    (strands : List Strand) (brkpts : List ℤ) (tcoords qcoords : List (ℤ × ℤ)) :
    define_rearr_py svEventInitAttrNames varReads n strands brkpts tcoords qcoords =
      Except.error PyErr.attributeError :=
  rfl

/-- Counterexample for C7: on an event whose accumulated chromosome list is
empty, `diff_chr` returns true although the set of reference names has size 0,
not size greater than 1. -/
theorem diff_chr_empty_cex :
    diff_chr [] = true ∧ ¬ (1 < ([] : List String).toFinset.card) := by
  constructor
  · rfl
  · simp

/-- Claim C7 amended: `diff_chr` returns true iff the set of accumulated
reference names has size different from 1; on a nonempty accumulated list this
coincides with size strictly greater than 1, but the empty list also yields
true (set size 0). -/
theorem diff_chr_card_amended (chrs : List String) :
    (diff_chr chrs = true ↔ chrs.toFinset.card ≠ 1) ∧
    (chrs ≠ [] → (diff_chr chrs = true ↔ 1 < chrs.toFinset.card)) := by
  have hcard : chrs.toFinset.card = chrs.dedup.length := List.card_toFinset chrs
  constructor
  · unfold diff_chr
    split_ifs with h <;> simp [hcard, h]
  · intro hne
    have hpos : 0 < chrs.dedup.length := by
      rw [List.length_pos]
      simpa [List.dedup_eq_nil] using hne
    unfold diff_chr
    split_ifs with h
    · simp [hcard, h]
    · rw [hcard]
      simp only [true_iff]
      omega

/-- Witness for C7's amended claim: two distinct chromosome names give a
translocation signal. -/
theorem diff_chr_card_amended_witness : diff_chr ["7", "X"] = true :=
  ((diff_chr_card_amended ["7", "X"]).2 (by decide)).mpr (by decide)

/-- Claim C8 (code bug, concrete evaluation): visiting a reverse-strand middle
segment appends two genomic-breakpoint entries — the forward-order tuple from
the unconditional append at line 388 and the reverse-order tuple from line 394
— not the single reverse-order entry the spec describes. -/
theorem update_brkpt_info_minus_middle_duplicates :
    (update_brkpt_info (update_brkpt_info initSVBrkptState segA 0 false) segBminus 1
        false).genomicBrkpts_target =
      [{ chrom := "chr1", pts := [40] }, { chrom := "chr1", pts := [50, 80] },
        { chrom := "chr1", pts := [80, 50] }] ∧
    (update_brkpt_info (update_brkpt_info initSVBrkptState segA 0 false) segBminus 1
        false).genomicBrkpts_target ≠
      (update_brkpt_info initSVBrkptState segA 0 false).genomicBrkpts_target ++
        [{ chrom := "chr1", pts := [80, 50] }] := by
  constructor
  · rfl
  · decide

lemma count_leading_zero_eq_takeWhile (l : List ℕ) :
    count_leading_zero_cov l = (l.takeWhile (fun x => x == 0)).length := by
  induction l with
  | nil => rfl
  | cons c rest ih =>
    by_cases h : c = 0
    · subst h
      simp [count_leading_zero_cov, List.takeWhile_cons, ih]
      omega
    · simp [count_leading_zero_cov, List.takeWhile_cons, h]

lemma count_leading_zero_all (l : List ℕ) (h : ∀ x ∈ l, x = 0) :
    count_leading_zero_cov l = l.length := by
  induction l with
  | nil => rfl
  | cons c rest ih =>
    have hc : c = 0 := h c (by simp)
    subst hc
    show (if (0 : ℕ) = 0 then 1 + count_leading_zero_cov rest else 0) = _
    rw [if_pos rfl, ih (fun x hx => h x (by simp [hx])), List.length_cons]
    omega

/-- Claim C9: `get_startend_missing_query_coverage` returns 100 times the sum of
the leading and trailing zero-coverage run lengths, divided by the contig
length, rounded to 4 decimal places; when every position of the coverage array
is zero, both runs cover the whole array and the returned percentage is 200. -/
theorem get_startend_missing_coverage_spec (cov : List ℕ) (n : ℕ)
    (h1 : n = cov.length) (h2 : 0 < n) :
    get_startend_missing_query_coverage cov n =
      pyRound4 (100 * ((((cov.takeWhile (fun x => x == 0)).length +
        (cov.reverse.takeWhile (fun x => x == 0)).length : ℕ) : ℚ) / (n : ℚ))) ∧
    ((∀ x ∈ cov, x = 0) → get_startend_missing_query_coverage cov n = 200) := by
  constructor
  · unfold get_startend_missing_query_coverage
    rw [count_leading_zero_eq_takeWhile, count_leading_zero_eq_takeWhile]
    ring_nf
  · intro hall
    unfold get_startend_missing_query_coverage
    dsimp only
    rw [count_leading_zero_all cov hall,
      count_leading_zero_all cov.reverse
        (fun x hx => hall x (List.mem_reverse.mp hx)),
      List.length_reverse]
    have hne : (n : ℚ) ≠ 0 := Nat.cast_ne_zero.mpr (by omega)
    have harg : (((cov.length + cov.length : ℕ) : ℚ) / (n : ℚ)) * 100 =
        ((200 : ℤ) : ℚ) := by
      rw [← h1]
      push_cast
      field_simp
      ring
    rw [harg, pyRound4_intCast]
    norm_num

/-- Witness for C9: an all-zero coverage array of length 3 yields 200 percent. -/
theorem get_startend_missing_coverage_spec_witness :
    get_startend_missing_query_coverage [0, 0, 0] 3 = 200 :=
  (get_startend_missing_coverage_spec [0, 0, 0] 3 rfl (by decide)).2 (by decide)

/-- Claim C10: constructing a `TargetManager` always raises: the `chrom` setter's
first read of the never-initialized `self.__chrom` raises `AttributeError` at
the `self.chrom = None` assignment, before any later statement runs; moreover
the class body binds the `@end.setter` function to the name `start`, leaving
the `end` property with no setter. -/
theorem targetManagerInit_always_raises :
    (∀ (name : String) (params : PyVal) (rest : Attrs → Except PyErr Attrs),
      targetManagerInit name params rest = Except.error PyErr.attributeError) ∧
    (targetManagerClassLookup "end").map (fun p => p.fset.isSome) = some false :=
  ⟨fun _ _ _ => rfl, rfl⟩

end BreaKmer
